import Mathlib

/-!
Verification development for the OpenAI-to-agent streaming bridge
(`bridge_server.py`).  The bridge accepts a chat-completion request,
opens a websocket session to the agent runtime, forwards the first
user message, and translates inbound agent events into SSE chunk
frames, always ending with one terminal frame.

The embedding below models the data and control flow of
`stream_agent_responses` and `chat_completions`.  Inbound websocket
messages are modelled as decoded JSON objects restricted to the four
string-valued fields the bridge reads (`observation`, `action`,
`content`, `args.command`), each possibly absent, plus a distinguished
non-decodable case (where `json.loads` raises).  Wall-clock data
(the `created` timestamp of each chunk) is not modelled; every other
field of a chunk is.  The nondeterminism of the environment (connect
failure, receive timeout, remote close, message arrival) is made
explicit as a `Session` parameter.
-/

namespace Bridge

/-- One element of `ChatCompletionRequest.messages` (pydantic `ChatMessage`). -/
structure ChatMessage where
  role : String
  content : String
deriving DecidableEq, Repr

/-- The request body of `POST /v1/chat/completions` (pydantic
`ChatCompletionRequest`; `stream` defaults to false upstream). -/
structure ChatCompletionRequest where
  model : String
  messages : List ChatMessage
  stream : Bool
deriving DecidableEq, Repr

/-- The `for message in request.messages: if message.role == "user": ...; break`
loop at the top of `stream_agent_responses`: content of the first message whose
role is literally "user", defaulting to the initial value `""`. -/
def firstUserMessage : List ChatMessage → String
  | [] => ""
  | m :: rest => if m.role = "user" then m.content else firstUserMessage rest

/-- A decoded inbound JSON object, restricted to the fields the loop body
reads.  `argsCommand` stands for the nested lookup `message["args"]["command"]`;
`none` covers both a missing `args` and a missing `command`.  Field values are
modelled as strings, per the agent protocol. -/
structure AgentMsg where
  observation : Option String
  action : Option String
  content : Option String
  argsCommand : Option String
deriving DecidableEq, Repr

/-- A raw inbound websocket message: either it decodes to a JSON object, or
`json.loads` raises `JSONDecodeError`. -/
inductive Inbound where
  | json (m : AgentMsg)
  | malformed
deriving DecidableEq, Repr

/-- The exceptions the loop body can raise that are NOT caught by the inner
`except` clauses (which catch only `asyncio.TimeoutError` and
`websockets.exceptions.ConnectionClosed`). -/
inductive PyError where
  | jsonDecodeError
  | keyError (key : String)
deriving DecidableEq, Repr

/-- The f-string template for a `CmdRunAction` command. -/
def cmdTemplate (c : String) : String :=
  "\n\nRunning command:\n```bash\n" ++ c ++ "\n```\n\n"

/-- The `content_chunk` computation of the loop body: the observation branch
is tried first, then the action branch, else the initial value `""`.
A missing field under a matched branch raises `KeyError`. -/
def contentChunk (m : AgentMsg) : Except PyError String :=
  if m.observation = some "AgentThinkObservation" then
    match m.content with
    | some c => .ok c
    | none => .error (.keyError "content")
  else if m.action = some "CmdRunAction" then
    match m.argsCommand with
    | some c => .ok (cmdTemplate c)
    | none => .error (.keyError "command")
  else
    .ok ""

/-- Full handling of one received message: `json.loads`, then `content_chunk`,
then the `if content_chunk:` truthiness filter (a Python string is truthy iff
non-empty).  `.ok (some c)` means one frame with content `c` is yielded,
`.ok none` means no frame, `.error e` means an exception escapes the loop. -/
def processInbound : Inbound → Except PyError (Option String)
  | .malformed => .error .jsonDecodeError
  | .json m => (contentChunk m).map (fun c => if c = "" then none else some c)

/-- One SSE chunk as yielded by the generator.  `delta = some c` stands for
`{"content": c}` and `delta = none` for the empty object; `created`
(wall-clock time) is not modelled. -/
structure ChunkFrame where
  id : String
  object : String
  model : String
  index : Nat
  delta : Option String
  finish_reason : Option String
deriving DecidableEq, Repr

/-- The chunk built for a non-terminal content fragment. -/
def contentFrame (model c : String) : ChunkFrame :=
  { id := "chatcmpl-123", object := "chat.completion.chunk", model := model,
    index := 0, delta := some c, finish_reason := none }

/-- The `done_chunk` emitted after the session body finishes. -/
def doneFrame (model : String) : ChunkFrame :=
  { id := "chatcmpl-123", object := "chat.completion.chunk", model := model,
    index := 0, delta := none, finish_reason := some "stop" }

/-- One outcome of an `await asyncio.wait_for(websocket.recv(), timeout=20.0)`
call: a message arrived within the 20-unit timeout, the timeout fired
(`asyncio.TimeoutError`), or the remote side closed the channel
(`ConnectionClosed`). -/
inductive RecvEvent where
  | msg (i : Inbound)
  | timeout
  | closed
deriving DecidableEq, Repr

/-- The environment of one request: either `websockets.connect` (or the
initial send) raises, or the session is connected and yields the given
finite sequence of receive outcomes. -/
inductive Session where
  | connectFail
  | connected (events : List RecvEvent)
deriving DecidableEq, Repr

/-- The `while True` receive loop: frames yielded before the terminal frame.
`timeout` and `closed` hit the inner `except` clauses and `break`; an
exception from `processInbound` escapes the loop (and the `async with`) and
is caught by the outer handler, so the loop stops yielding. -/
def drainFrames (model : String) : List RecvEvent → List ChunkFrame
  | [] => []
  | .timeout :: _ => []
  | .closed :: _ => []
  | .msg i :: rest =>
    match processInbound i with
    | .ok (some c) => contentFrame model c :: drainFrames model rest
    | .ok none => drainFrames model rest
    | .error _ => []

/-- The `message_action` payload sent right after connecting. -/
structure SentAction where
  content : String
  source : String
deriving DecidableEq, Repr

/-- Observable behaviour of one run of the `stream_agent_responses`
generator: the action sent into the session (if the connect succeeded) and
the full list of frames yielded on the SSE output. -/
structure StreamResult where
  sent : Option SentAction
  frames : List ChunkFrame
deriving DecidableEq, Repr

/-- The `stream_agent_responses` generator.  On connect (or send) failure the
outer `except Exception` swallows the error; in every case the `done_chunk`
is yielded last, after the `try` block. -/
def stream_agent_responses (req : ChatCompletionRequest) (sess : Session) :
    StreamResult :=
  let user_message := firstUserMessage req.messages
  match sess with
  | .connectFail => { sent := none, frames := [doneFrame req.model] }
  | .connected es =>
    { sent := some { content := user_message, source := "user" },
      frames := drainFrames req.model es ++ [doneFrame req.model] }

/-- The two possible HTTP responses of `chat_completions`. -/
inductive Response where
  | streaming (frames : List ChunkFrame)
  | notImplemented (error : String)
deriving DecidableEq, Repr

/-- The `POST /v1/chat/completions` handler: stream the generator when
`request.stream`, else return the fixed JSON error body. -/
def chat_completions (req : ChatCompletionRequest) (sess : Session) :
    Response :=
  if req.stream then .streaming (stream_agent_responses req sess).frames
  else .notImplemented "Non-streaming not implemented yet"

/-- A frame is terminal when its delta is the empty object and its finish
reason is "stop". -/
def isTerminalFrame (f : ChunkFrame) : Bool :=
  f.delta = none && f.finish_reason = some "stop"

/-- True when the receive loop works through the whole event list without
breaking out or raising: every event is a message that processes cleanly. -/
def drainContinues : List RecvEvent → Bool
  | [] => true
  | .msg i :: rest => (processInbound i).isOk && drainContinues rest
  | .timeout :: _ => false
  | .closed :: _ => false

/-- The EventTranslator mapping exactly as §4.3 of the spec words it:
an AgentThinkObservation emits its content verbatim, a CmdRunAction emits
the command template, anything else emits nothing. -/
def specTranslate (m : AgentMsg) : Option String :=
  if m.observation = some "AgentThinkObservation" then m.content
  else if m.action = some "CmdRunAction" then m.argsCommand.map cmdTemplate
  else none

/-- The spec's translation amended by the truthiness filter the code applies:
an AgentThinkObservation with empty content emits nothing. -/
def specTranslateEmitted (m : AgentMsg) : Option String :=
  if m.observation = some "AgentThinkObservation" then
    m.content.bind (fun c => if c = "" then none else some c)
  else if m.action = some "CmdRunAction" then m.argsCommand.map cmdTemplate
  else none

/-- A decoded message carries the field its matched branch reads, so its
processing cannot raise. -/
def wellFormed (m : AgentMsg) : Bool :=
  if m.observation = some "AgentThinkObservation" then m.content.isSome
  else if m.action = some "CmdRunAction" then m.argsCommand.isSome
  else true

/-! Helper lemmas shared by the claim theorems. -/

theorem cmdTemplate_ne_empty (c : String) : cmdTemplate c ≠ "" := by
  intro h
  have h1 := congrArg String.length h
  have hA : ("\n\nRunning command:\n```bash\n" : String).length = 27 := by decide
  have hB : ("\n```\n\n" : String).length = 6 := by decide
  rw [cmdTemplate, String.length_append, String.length_append, hA, hB] at h1
  simp at h1

theorem processInbound_ok_some_ne_empty {i : Inbound} {c : String}
    (h : processInbound i = .ok (some c)) : c ≠ "" := by
  cases i with
  | malformed => simp [processInbound] at h
  | json m =>
    cases hc : contentChunk m with
    | error e => simp [processInbound, hc, Except.map] at h
    | ok s =>
      simp [processInbound, hc, Except.map] at h
      by_cases hs : s = ""
      · simp [hs] at h
      · simp [hs] at h
        exact h ▸ hs

theorem mem_drainFrames {model : String} {es : List RecvEvent} {f : ChunkFrame}
    (h : f ∈ drainFrames model es) :
    ∃ c, c ≠ "" ∧ f = contentFrame model c := by
  induction es with
  | nil => simp [drainFrames] at h
  | cons e rest ih =>
    cases e with
    | timeout => simp [drainFrames] at h
    | closed => simp [drainFrames] at h
    | msg i =>
      cases hp : processInbound i with
      | error e => simp [drainFrames, hp] at h
      | ok o =>
        cases o with
        | none =>
          simp only [drainFrames, hp] at h
          exact ih h
        | some c =>
          simp only [drainFrames, hp, List.mem_cons] at h
          rcases h with h1 | h1
          · exact ⟨c, processInbound_ok_some_ne_empty hp, h1⟩
          · exact ih h1

theorem firstUserMessage_eq_find (ms : List ChatMessage) :
    firstUserMessage ms
      = ((ms.find? (fun m => m.role == "user")).map ChatMessage.content).getD "" := by
  induction ms with
  | nil => rfl
  | cons m rest ih =>
    by_cases h : m.role = "user"
    · simp [firstUserMessage, List.find?, h]
    · have hb : (m.role == "user") = false := beq_eq_false_iff_ne.mpr h
      simp [firstUserMessage, List.find?, h, hb, ih]

theorem drainFrames_append (model : String) (pre rest : List RecvEvent)
    (h : drainContinues pre = true) :
    drainFrames model (pre ++ rest)
      = drainFrames model pre ++ drainFrames model rest := by
  induction pre with
  | nil => simp [drainFrames]
  | cons e tail ih =>
    cases e with
    | timeout => simp [drainContinues] at h
    | closed => simp [drainContinues] at h
    | msg i =>
      simp only [drainContinues, Bool.and_eq_true] at h
      obtain ⟨h1, h2⟩ := h
      cases hp : processInbound i with
      | error e => rw [hp] at h1; simp [Except.isOk, Except.toBool] at h1
      | ok o =>
        cases o with
        | none => simp [drainFrames, hp, ih h2]
        | some c => simp [drainFrames, hp, ih h2]

/-! Claim theorems. -/

/-- C1: for every request with stream = true, the SSE output ends with the
terminal frame (delta empty, finish reason "stop"), that frame is terminal,
and it is the only terminal frame of the stream — whatever the session
environment did (connect failure, timeout, remote close, error, or
exhaustion). -/
theorem c1_terminal_frame_unique_and_last (req : ChatCompletionRequest)
    (sess : Session) (h : req.stream = true) :
    ∃ fs, chat_completions req sess = .streaming fs ∧
      fs.getLast? = some (doneFrame req.model) ∧
      isTerminalFrame (doneFrame req.model) = true ∧
      fs.countP isTerminalFrame = 1 := by
  refine ⟨(stream_agent_responses req sess).frames, by simp [chat_completions, h], ?_, ?_, ?_⟩
  · cases sess <;> simp [stream_agent_responses]
  · simp [isTerminalFrame, doneFrame]
  · have hone : List.countP isTerminalFrame [doneFrame req.model] = 1 := by
      simp [List.countP, List.countP.go, isTerminalFrame, doneFrame]
    cases sess with
    | connectFail => exact hone
    | connected es =>
      have hzero : (drainFrames req.model es).countP isTerminalFrame = 0 := by
        rw [List.countP_eq_zero]
        intro f hf
        obtain ⟨c, hc, rfl⟩ := mem_drainFrames hf
        simp [isTerminalFrame, contentFrame]
      simp [stream_agent_responses, List.countP_append, hzero, hone]

/-- C1 witness at a concrete request and session. -/
theorem c1_witness :
    ∃ fs, chat_completions ⟨"m", [], true⟩ .connectFail = .streaming fs ∧
      fs.getLast? = some (doneFrame "m") ∧
      isTerminalFrame (doneFrame "m") = true ∧
      fs.countP isTerminalFrame = 1 :=
  c1_terminal_frame_unique_and_last ⟨"m", [], true⟩ .connectFail rfl

/-- C3: the content forwarded into the session is the content of the first
message with role "user", in list order, and the empty string when no such
message exists; the session is still opened and sent to either way. -/
theorem c3_first_user_message_forwarded (req : ChatCompletionRequest)
    (es : List RecvEvent) :
    (stream_agent_responses req (.connected es)).sent
      = some { content :=
                 ((req.messages.find? (fun m => m.role == "user")).map
                   ChatMessage.content).getD "",
               source := "user" } := by
  simp [stream_agent_responses, firstUserMessage_eq_find]

/-- C4: a CmdRunAction message (with the observation branch not taken) emits
exactly the fenced-bash template around its command text. -/
theorem c4_cmd_run_template (m : AgentMsg) (c : String)
    (h1 : m.action = some "CmdRunAction")
    (h2 : m.observation ≠ some "AgentThinkObservation")
    (h3 : m.argsCommand = some c) :
    processInbound (.json m)
      = .ok (some ("\n\nRunning command:\n```bash\n" ++ c ++ "\n```\n\n")) := by
  have hne : ¬("\n\nRunning command:\n```bash\n" ++ c ++ "\n```\n\n" = "") := by
    simpa [cmdTemplate] using cmdTemplate_ne_empty c
  simp [processInbound, contentChunk, h1, h2, h3, Except.map, cmdTemplate, hne]

/-- C4 witness: the command "ls -la" produces the literal template of the
spec. -/
theorem c4_witness :
    processInbound (.json ⟨none, some "CmdRunAction", none, some "ls -la"⟩)
      = .ok (some "\n\nRunning command:\n```bash\nls -la\n```\n\n") := by
  have h := c4_cmd_run_template ⟨none, some "CmdRunAction", none, some "ls -la"⟩
    "ls -la" rfl (by simp) rfl
  exact h

/-- C5 counterexample: an AgentThinkObservation whose content is the empty
string produces no fragment at all, so its content is not emitted verbatim
as one fragment; the stream holds only the terminal frame where the claim
predicts an empty content frame before it. -/
theorem c5_counterexample :
    (stream_agent_responses ⟨"m", [], true⟩
        (.connected [.msg (.json ⟨some "AgentThinkObservation", none, some "", none⟩)])).frames
      = [doneFrame "m"] ∧
    [doneFrame "m"] ≠ [contentFrame "m" "", doneFrame "m"] := by
  exact ⟨rfl, by decide⟩

/-- C5 amended: an AgentThinkObservation's content is emitted verbatim as one
fragment whenever it is non-empty; empty content yields no fragment. -/
theorem c5_think_content_verbatim (m : AgentMsg) (c : String)
    (h1 : m.observation = some "AgentThinkObservation")
    (h2 : m.content = some c) :
    processInbound (.json m) = .ok (if c = "" then none else some c) := by
  simp [processInbound, contentChunk, h1, h2, Except.map]

/-- C5 witness: content "thinking..." is emitted exactly as "thinking...". -/
theorem c5_witness :
    processInbound (.json ⟨some "AgentThinkObservation", none, some "thinking...", none⟩)
      = .ok (some "thinking...") := by
  have h := c5_think_content_verbatim
    ⟨some "AgentThinkObservation", none, some "thinking...", none⟩ "thinking..." rfl rfl
  simpa using h

/-- C6: every request with stream = false gets the fixed not-implemented JSON
error body, for every session environment — the streaming generator is never
entered. -/
theorem c6_non_streaming_rejected (req : ChatCompletionRequest) (sess : Session)
    (h : req.stream = false) :
    chat_completions req sess = .notImplemented "Non-streaming not implemented yet" := by
  simp [chat_completions, h]

/-- C6 witness at a concrete non-streaming request. -/
theorem c6_witness :
    chat_completions ⟨"m", [⟨"user", "hi"⟩], false⟩ .connectFail
      = .notImplemented "Non-streaming not implemented yet" :=
  c6_non_streaming_rejected ⟨"m", [⟨"user", "hi"⟩], false⟩ .connectFail rfl

/-- C7: on a connect failure, and likewise when the first receive attempt
times out after 20 units, the streaming response holds exactly the terminal
frame and the handler still answers with a normal stream. -/
theorem c7_connect_failure_or_timeout_only_terminal (req : ChatCompletionRequest)
    (h : req.stream = true) :
    chat_completions req .connectFail = .streaming [doneFrame req.model] ∧
    ∀ rest, chat_completions req (.connected (.timeout :: rest))
      = .streaming [doneFrame req.model] := by
  constructor
  · simp [chat_completions, h, stream_agent_responses]
  · intro rest
    simp [chat_completions, h, stream_agent_responses, drainFrames]

/-- C7 witness at a concrete streaming request. -/
theorem c7_witness :
    chat_completions ⟨"m", [], true⟩ .connectFail = .streaming [doneFrame "m"] ∧
    ∀ rest, chat_completions ⟨"m", [], true⟩ (.connected (.timeout :: rest))
      = .streaming [doneFrame "m"] :=
  c7_connect_failure_or_timeout_only_terminal ⟨"m", [], true⟩ rfl

/-- C2 counterexample: a non-decodable message does terminate the session's
receive sequence — a well-formed AgentThinkObservation arriving right after
it is never received, so its "hi" frame is missing from the stream. -/
theorem c2_counterexample :
    (stream_agent_responses ⟨"m", [], true⟩
        (.connected [.msg .malformed,
          .msg (.json ⟨some "AgentThinkObservation", none, some "hi", none⟩)])).frames
      = [doneFrame "m"] ∧
    [doneFrame "m"] ≠ [contentFrame "m" "hi", doneFrame "m"] := by
  exact ⟨rfl, by decide⟩

/-- C2 amended: a message whose processing raises (non-decodable text, or a
matched kind missing its required field) terminates the receive sequence,
discarding everything after it, while a decodable message matching no known
kind is skipped and the sequence continues. -/
theorem c2_error_terminates_skip_continues (model : String)
    (pre post : List RecvEvent) (i : Inbound)
    (hpre : drainContinues pre = true) :
    ((processInbound i).isOk = false →
       drainFrames model (pre ++ .msg i :: post) = drainFrames model pre) ∧
    (processInbound i = .ok none →
       drainFrames model (pre ++ .msg i :: post)
         = drainFrames model pre ++ drainFrames model post) := by
  constructor
  · intro herr
    rw [drainFrames_append model pre _ hpre]
    cases hp : processInbound i with
    | ok o => rw [hp] at herr; simp [Except.isOk, Except.toBool] at herr
    | error e => simp [drainFrames, hp]
  · intro hok
    rw [drainFrames_append model pre _ hpre]
    simp [drainFrames, hok]

/-- C2 witness: after one skipped unknown-kind message, a malformed message
cuts the sequence short. -/
theorem c2_witness :
    drainFrames "m" ([RecvEvent.msg (.json ⟨none, none, none, none⟩)]
        ++ RecvEvent.msg .malformed
          :: [RecvEvent.msg (.json ⟨some "AgentThinkObservation", none, some "hi", none⟩)])
      = drainFrames "m" [RecvEvent.msg (.json ⟨none, none, none, none⟩)] :=
  (c2_error_terminates_skip_continues "m" _ _ .malformed (by decide)).1 (by decide)

/-- C8 counterexample: the emitted frames are not exactly the spec's
translations of the messages in order. An empty-content AgentThinkObservation
translates to an (empty) fragment yet yields no frame, and a sequence holding
a malformed message loses the CmdRunAction translation arriving after it. -/
theorem c8_counterexample :
    (drainFrames "m"
        [RecvEvent.msg (.json ⟨some "AgentThinkObservation", none, some "", none⟩)] = [] ∧
     ([⟨some "AgentThinkObservation", none, some "", none⟩] : List AgentMsg).filterMap
        specTranslate = [""] ∧
     ([] : List ChunkFrame) ≠ [contentFrame "m" ""]) ∧
    drainFrames "m" [RecvEvent.msg .malformed,
        RecvEvent.msg (.json ⟨none, some "CmdRunAction", none, some "ls"⟩)] = [] := by
  exact ⟨⟨rfl, rfl, by decide⟩, rfl⟩

/-- C8 amended: over decodable messages each carrying the field its matched
kind requires, the non-terminal frames are exactly, in arrival order, the
translations of the AgentThinkObservation messages with non-empty content
and of the CmdRunAction messages; other kinds yield no frame and the
sequence continues past them. -/
theorem c8_frames_in_order (model : String) (ms : List AgentMsg)
    (h : ∀ m ∈ ms, wellFormed m = true) :
    drainFrames model (ms.map (fun m => RecvEvent.msg (.json m)))
      = (ms.filterMap specTranslateEmitted).map (contentFrame model) := by
  induction ms with
  | nil => rfl
  | cons m rest ih =>
    have hm : wellFormed m = true := h m (List.mem_cons_self m rest)
    have hrest := ih (fun x hx => h x (List.mem_cons_of_mem m hx))
    by_cases ho : m.observation = some "AgentThinkObservation"
    · rw [wellFormed, if_pos ho, Option.isSome_iff_exists] at hm
      obtain ⟨c, hc⟩ := hm
      by_cases hce : c = ""
      · subst hce
        simp [drainFrames, processInbound, contentChunk, ho, hc, Except.map,
          specTranslateEmitted, hrest]
      · simp [drainFrames, processInbound, contentChunk, ho, hc, Except.map,
          specTranslateEmitted, hce, hrest]
    · by_cases ha : m.action = some "CmdRunAction"
      · rw [wellFormed, if_neg ho, if_pos ha, Option.isSome_iff_exists] at hm
        obtain ⟨c, hc⟩ := hm
        have hne := cmdTemplate_ne_empty c
        simp [drainFrames, processInbound, contentChunk, ho, ha, hc, Except.map,
          specTranslateEmitted, hne, hrest]
      · simp [drainFrames, processInbound, contentChunk, ho, ha, Except.map,
          specTranslateEmitted, hrest]

/-- C8 witness on a concrete session: a think observation, an unknown kind,
then a command. -/
theorem c8_witness :
    drainFrames "m"
        (([⟨some "AgentThinkObservation", none, some "hi", none⟩,
           ⟨some "OtherObservation", some "OtherAction", none, none⟩,
           ⟨none, some "CmdRunAction", none, some "ls"⟩] : List AgentMsg).map
          (fun m => RecvEvent.msg (.json m)))
      = (([⟨some "AgentThinkObservation", none, some "hi", none⟩,
           ⟨some "OtherObservation", some "OtherAction", none, none⟩,
           ⟨none, some "CmdRunAction", none, some "ls"⟩] : List AgentMsg).filterMap
          specTranslateEmitted).map (contentFrame "m") :=
  c8_frames_in_order "m" _ (by decide)

/-- C9: on every session outcome the stream splits as a body followed by the
terminal frame, and every body frame has a null finish reason and a
non-empty content delta. -/
theorem c9_nonterminal_frames_shape (req : ChatCompletionRequest) (sess : Session) :
    ∃ body, (stream_agent_responses req sess).frames = body ++ [doneFrame req.model] ∧
      ∀ f ∈ body, f.finish_reason = none ∧ ∃ c, f.delta = some c ∧ c ≠ "" := by
  cases sess with
  | connectFail => exact ⟨[], rfl, by simp⟩
  | connected es =>
    refine ⟨drainFrames req.model es, rfl, ?_⟩
    intro f hf
    obtain ⟨c, hc, rfl⟩ := mem_drainFrames hf
    exact ⟨rfl, c, rfl, hc⟩

/-- C10: when a message carries both the AgentThinkObservation tag and the
CmdRunAction tag, the observation mapping wins: the fragment is the content
field, untouched by the command template. -/
theorem c10_observation_takes_precedence (m : AgentMsg) (c : String)
    (h1 : m.observation = some "AgentThinkObservation")
    (h2 : m.action = some "CmdRunAction")
    (h3 : m.content = some c) (h4 : c ≠ "") :
    processInbound (.json m) = .ok (some c) := by
  simp [processInbound, contentChunk, h1, h3, Except.map, h4]

/-- C10 witness: a dual-tagged message emits its content "hi", not the
template around its command "ls". -/
theorem c10_witness :
    processInbound (.json ⟨some "AgentThinkObservation", some "CmdRunAction",
        some "hi", some "ls"⟩) = .ok (some "hi") :=
  c10_observation_takes_precedence
    ⟨some "AgentThinkObservation", some "CmdRunAction", some "hi", some "ls"⟩
    "hi" rfl rfl rfl (by decide)

end Bridge
